import Mathlib

/-
Verification of the real-time object-tracking client pipeline:
the stream-session state machine of `src/app/hooks/use-object-tracker.ts`
and the overlay renderer of the tracking-canvas component.

The embedding models the hook's mutable refs and React state as one
`Session` record, WebSocket instances as entries of `Session.conns`
(the `wsRef` field holds the index of the socket currently referenced),
and each event handler / exported operation as a pure state transformer.
Coordinates and confidences (JS numbers) are modelled as rationals;
timestamps, dimensions and counters as naturals.
-/

set_option autoImplicit false

namespace ObjectTracking

/-- WebSocket readyState values: CONNECTING, OPEN, CLOSING, CLOSED. -/
inductive ReadyState
  | connecting
  | open_
  | closing
  | closed
deriving DecidableEq, Repr

/-- Bounding box `[x1, y1, x2, y2]` in source-frame pixel coordinates
(`bbox: [number, number, number, number]` in `tracking.ts`). -/
structure BBox where
  x1 : ℚ
  y1 : ℚ
  x2 : ℚ
  y2 : ℚ
deriving DecidableEq, Repr

/-- `TrackedObject` from `src/app/types/tracking.ts`; `cls` stands for the
`class` field (a Lean keyword). -/
structure TrackedObject where
  id : Nat
  bbox : BBox
  cls : String
  confidence : ℚ
  trajectory : Option (List (ℚ × ℚ))
deriving DecidableEq, Repr

/-- `TrackingConfig` from `src/app/types/tracking.ts`. -/
structure TrackingConfig where
  wsUrl : String
  apiUrl : String
  confidenceThreshold : Option ℚ
deriving DecidableEq, Repr

/-- A message sent on a WebSocket by the hook: the keepalive ping
`{type: "ping"}` or a frame `{type: "frame", image, timestamp, frame_id}`. -/
inductive OutMsg
  | ping
  | frame (image : String) (timestamp : Nat) (frame_id : Nat)
deriving DecidableEq, Repr

/-- An inbound JSON message as inspected by `ws.onmessage`: the handler
looks at `data.type`, `data.error` and `data.objects`, each possibly
absent. -/
structure InMsg where
  msgType : Option String
  error : Option String
  objects : Option (List TrackedObject)
deriving DecidableEq, Repr

/-- One WebSocket created by `connectWebSocket`: its readyState and the
log of messages sent on it (most recent first). -/
structure Conn where
  rs : ReadyState
  sent : List OutMsg
deriving DecidableEq, Repr

/-- The state owned by one `useObjectTracker` hook instance: the React
state (`trackedObjects`, `isProcessing`, `isConnected`, `fps`, `error`),
the refs (`wsRef`, `frameCountRef`, `lastTimeRef`, and `pingActive` for
whether the interval referenced by `pingIntervalRef` is running), and the
sockets this instance has created. -/
structure Session where
  config : TrackingConfig
  conns : List Conn
  wsRef : Option Nat
  trackedObjects : List TrackedObject
  isProcessing : Bool
  isConnected : Bool
  fps : Nat
  error : Option String
  frameCount : Nat
  lastTime : Nat
  pingActive : Bool
deriving DecidableEq, Repr

/-- Replace the element at index `i` by `f` applied to it (out-of-range
indices leave the list unchanged). -/
def listModify {α : Type} : List α → Nat → (α → α) → List α
  | [], _, _ => []
  | a :: t, 0, f => f a :: t
  | a :: t, n + 1, f => a :: listModify t n f

/-- The hook's initial state: no sockets, empty snapshot, fps 0. -/
def initSession (cfg : TrackingConfig) (now : Nat) : Session :=
  { config := cfg
    conns := []
    wsRef := none
    trackedObjects := []
    isProcessing := false
    isConnected := false
    fps := 0
    error := none
    frameCount := 0
    lastTime := now
    pingActive := false }

/-- `connectWebSocket`: clears the error, creates a fresh WebSocket (which
starts in CONNECTING) and stores it in `wsRef` — without closing or
checking any previously referenced socket. -/
def connectWebSocket (s : Session) : Session :=
  { s with
    error := none
    conns := s.conns ++ [{ rs := ReadyState.connecting, sent := [] }]
    wsRef := some s.conns.length }

/-- `startTracking`: resets `frameCountRef` and `lastTimeRef`, then calls
`connectWebSocket`. -/
def startTracking (s : Session) (now : Nat) : Session :=
  connectWebSocket { s with frameCount := 0, lastTime := now }

/-- The transport reaches OPEN on socket `i` and its `ws.onopen` handler
fires: sets `isConnected` and `isProcessing`, and starts the keepalive
interval (stored into `pingIntervalRef`). Only a CONNECTING socket can
fire `onopen`. -/
def transportOpen (s : Session) (i : Nat) : Session :=
  match s.conns[i]? with
  | some c =>
    if c.rs = ReadyState.connecting then
      { s with
        conns := listModify s.conns i (fun c => { c with rs := ReadyState.open_ })
        isConnected := true
        isProcessing := true
        pingActive := true }
    else s
  | none => s

/-- One tick of the keepalive interval created in `onopen` for socket `i`:
sends `{type: "ping"}` if the socket is OPEN. -/
def pingTick (s : Session) (i : Nat) : Session :=
  match s.conns[i]? with
  | some c =>
    if s.pingActive ∧ c.rs = ReadyState.open_ then
      { s with conns := listModify s.conns i (fun c => { c with sent := OutMsg.ping :: c.sent }) }
    else s
  | none => s

/-- JS truthiness of an optional string field: present and non-empty. -/
def truthyStr : Option String → Bool
  | some e => e ≠ ""
  | none => false

/-- `Math.round (a / b)` for naturals (`b > 0`): round half up. -/
def natRound (a b : Nat) : Nat := (2 * a + b) / (2 * b)

/-- The `data.objects` branch of `ws.onmessage`: replace the snapshot,
increment `frameCountRef`, and if at least 1000ms elapsed since
`lastTimeRef`, recompute `fps` and reset counter and window start. -/
def handleResults (s : Session) (objs : List TrackedObject) (now : Nat) : Session :=
  let s1 := { s with trackedObjects := objs, frameCount := s.frameCount + 1 }
  let delta := now - s1.lastTime
  if delta ≥ 1000 then
    { s1 with
      fps := natRound (s1.frameCount * 1000) delta
      frameCount := 0
      lastTime := now }
  else s1

/-- The body of `ws.onmessage` on a successfully parsed message: a pong is
discarded, a truthy `error` field is recorded and handling returns, and an
`objects` field (even an empty array) replaces the snapshot and feeds the
FPS estimator. -/
def handleMessage (s : Session) (msg : InMsg) (now : Nat) : Session :=
  if msg.msgType = some "pong" then s
  else if truthyStr msg.error then { s with error := msg.error }
  else
    match msg.objects with
    | some objs => handleResults s objs now
    | none => s

/-- Delivery of an inbound message on socket `i`: the browser fires
`message` events only on an OPEN socket, and the handler is
`handleMessage` (the `onmessage` closure of every socket this hook
created writes the same shared state). -/
def deliver (s : Session) (i : Nat) (msg : InMsg) (now : Nat) : Session :=
  match s.conns[i]? with
  | some c => if c.rs = ReadyState.open_ then handleMessage s msg now else s
  | none => s

/-- `sendFrame`: transmits `{type: "frame", image, timestamp: Date.now(),
frame_id: frameCountRef.current}` if and only if
`wsRef.current?.readyState === WebSocket.OPEN`; otherwise does nothing. -/
def sendFrame (s : Session) (frameData : String) (now : Nat) : Session :=
  match s.wsRef with
  | some i =>
    match s.conns[i]? with
    | some c =>
      if c.rs = ReadyState.open_ then
        { s with conns := listModify s.conns i (fun c => { c with sent := OutMsg.frame frameData now s.frameCount :: c.sent }) }
      else s
    | none => s
  | none => s

/-- `ws.close()`: a socket not yet CLOSED moves to CLOSING; a CLOSED
socket is unaffected. -/
def closeSocket (c : Conn) : Conn :=
  { c with rs := if c.rs = ReadyState.closed then ReadyState.closed else ReadyState.closing }

/-- `stopTracking`: clears processing state, empties the snapshot, zeroes
`fps`, clears the keepalive interval referenced by `pingIntervalRef`, and
closes and drops the socket referenced by `wsRef` (if any). -/
def stopTracking (s : Session) : Session :=
  { s with
    isProcessing := false
    trackedObjects := []
    fps := 0
    pingActive := false
    conns :=
      match s.wsRef with
      | some i => listModify s.conns i closeSocket
      | none => s.conns
    wsRef := none }

/-- `ws.onerror`: records a connection error and marks not connected. -/
def transportError (s : Session) : Session :=
  { s with
    error := some "Connection error. Please check your network."
    isConnected := false }

/-- Socket `i` reaches CLOSED and its `ws.onclose` handler fires: marks
not connected, not processing, and clears the referenced keepalive
interval. -/
def transportClose (s : Session) (i : Nat) : Session :=
  match s.conns[i]? with
  | some c =>
    if c.rs ≠ ReadyState.closed then
      { s with
        conns := listModify s.conns i (fun c => { c with rs := ReadyState.closed })
        isConnected := false
        isProcessing := false
        pingActive := false }
    else s
  | none => s

/-- The readyState of the socket currently referenced by `wsRef`. -/
def wsReadyState (s : Session) : Option ReadyState :=
  s.wsRef.bind (fun i => (s.conns[i]?).map Conn.rs)

/-- The spec's `SessionState`: `Idle` when no socket is referenced,
otherwise the referenced socket's readyState. -/
inductive SessionState
  | Idle
  | Connecting
  | Open
  | Closing
  | Closed
deriving DecidableEq, Repr

def sessionState (s : Session) : SessionState :=
  match wsReadyState s with
  | none => SessionState.Idle
  | some ReadyState.connecting => SessionState.Connecting
  | some ReadyState.open_ => SessionState.Open
  | some ReadyState.closing => SessionState.Closing
  | some ReadyState.closed => SessionState.Closed

/-- Total number of send operations performed on all sockets. -/
def totalSent (s : Session) : Nat :=
  (s.conns.map (fun c => c.sent.length)).sum

/-- The `frame_id` fields of the frames sent on socket `i`, most recent
first. -/
def frameIds (s : Session) (i : Nat) : List Nat :=
  match s.conns[i]? with
  | some c =>
    c.sent.filterMap (fun m =>
      match m with
      | OutMsg.frame _ _ fid => some fid
      | OutMsg.ping => none)
  | none => []

/-! ## Overlay renderer (`TrackingCanvas.draw`) -/

/-- The 15-color palette of the tracking canvas. -/
def COLORS : List String :=
  ["#FF6B6B", "#4ECDC4", "#45B7D1", "#96CEB4", "#FECA57",
   "#FF9FF3", "#54A0FF", "#48DBFB", "#1DD1A1", "#FFC048",
   "#FF6B9D", "#C44569", "#F8B500", "#6C5CE7", "#A29BFE"]

/-- `Number.prototype.toFixed(0)`: the integer closest to `q`, ties
toward the larger integer. -/
def jsToFixed0 (q : ℚ) : ℤ := ⌊q + 1 / 2⌋

/-- What `draw` paints for one `TrackedObject`: the stroked rectangle
(as its scaled corners), the corner-accent length, the label text, and
the scaled trajectory polyline (empty when fewer than two points). -/
structure RenderedObject where
  color : String
  box : BBox
  cornerLength : ℚ
  label : String
  trajectory : List (ℚ × ℚ)
deriving DecidableEq, Repr

/-- The per-object body of the `trackedObjects.forEach` loop in `draw`. -/
def renderObject (scaleX scaleY : ℚ) (obj : TrackedObject) : RenderedObject :=
  let sx1 := obj.bbox.x1 * scaleX
  let sy1 := obj.bbox.y1 * scaleY
  let sx2 := obj.bbox.x2 * scaleX
  let sy2 := obj.bbox.y2 * scaleY
  let width := sx2 - sx1
  let height := sy2 - sy1
  { color := COLORS.getD (obj.id % COLORS.length) ""
    box := { x1 := sx1, y1 := sy1, x2 := sx2, y2 := sy2 }
    cornerLength := min width height * (2 / 10)
    label := "ID:" ++ toString obj.id ++ " " ++ obj.cls ++ " "
      ++ toString (jsToFixed0 (obj.confidence * 100)) ++ "%"
    trajectory :=
      match obj.trajectory with
      | some pts =>
        if pts.length > 1 then pts.map (fun p => (p.1 * scaleX, p.2 * scaleY)) else []
      | none => [] }

/-- The outcome of one redraw: canvas dimensions after the sync step,
the scale factors, and the per-object render records. -/
structure DrawResult where
  width : Nat
  height : Nat
  scaleX : ℚ
  scaleY : ℚ
  objects : List RenderedObject
deriving DecidableEq, Repr

/-- One call of `draw`: (1) if the canvas dimensions differ from the
video's native dimensions, set them to the video's; (2) clear; (3)
`scaleX = canvas.width / (video.videoWidth || 1)` and likewise for Y;
(4) render every tracked object. -/
def draw (canvasW canvasH videoW videoH : Nat) (objs : List TrackedObject) : DrawResult :=
  let syncedW := if canvasW = videoW ∧ canvasH = videoH then canvasW else videoW
  let syncedH := if canvasW = videoW ∧ canvasH = videoH then canvasH else videoH
  let scaleX : ℚ := (syncedW : ℚ) / (((if videoW = 0 then 1 else videoW) : Nat) : ℚ)
  let scaleY : ℚ := (syncedH : ℚ) / (((if videoH = 0 then 1 else videoH) : Nat) : ℚ)
  { width := syncedW
    height := syncedH
    scaleX := scaleX
    scaleY := scaleY
    objects := objs.map (renderObject scaleX scaleY) }

/-! ## Concrete sessions and messages used to evaluate the model -/

def cfg0 : TrackingConfig :=
  { wsUrl := "ws://localhost:8000/ws", apiUrl := "http://localhost:8000", confidenceThreshold := none }

/-- A session that called `startTracking` at t=0 and whose socket reached
OPEN: `sessionState` is `Open`. -/
def sOpen : Session := transportOpen (startTracking (initSession cfg0 0) 0) 0

/-- A results message `{objects: [...]}` with no `type` and no `error`. -/
def resultsMsg (objs : List TrackedObject) : InMsg :=
  { msgType := none, error := none, objects := some objs }

/-- Ten results messages delivered at t = 100, 200, ..., 1000 on the open
socket: uniform spacing across one 1000ms window. -/
def tenUniform : Session :=
  (List.range 10).foldl (fun s k => deliver s 0 (resultsMsg []) ((k + 1) * 100)) sOpen

/-- `startTracking` called a second time with the first socket still open
and no intervening `stopTracking`; both transports then complete their
handshake. -/
def doubleStart : Session :=
  transportOpen (startTracking sOpen 0) 1

/-- Number of sockets of the session currently in the OPEN state. -/
def openConnCount (s : Session) : Nat :=
  (s.conns.filter (fun c => c.rs = ReadyState.open_)).length

/-- The bbox (100,50,200,150) of the spec's coordinate-transform test. -/
def objC2 : TrackedObject :=
  { id := 1
    bbox := { x1 := 100, y1 := 50, x2 := 200, y2 := 150 }
    cls := "car"
    confidence := 9 / 10
    trajectory := none }

/-- A tracked object used to exercise inbound results delivery. -/
def objC9 : TrackedObject :=
  { id := 7
    bbox := { x1 := 1, y1 := 2, x2 := 3, y2 := 4 }
    cls := "person"
    confidence := 1 / 2
    trajectory := none }

/-! ## Helper lemmas -/

theorem listModify_getElem {α : Type} (l : List α) (i : Nat) (f : α → α) :
    (listModify l i f)[i]? = l[i]?.map f := by
  induction l generalizing i with
  | nil => cases i <;> simp [listModify]
  | cons a t ih =>
    cases i with
    | zero => simp [listModify]
    | succ n => simp [listModify, ih n]

theorem sendFrame_open (s : Session) (i : Nat) (c : Conn) (d : String) (t : Nat)
    (hw : s.wsRef = some i) (hc : s.conns[i]? = some c) (hrs : c.rs = ReadyState.open_) :
    sendFrame s d t =
      { s with conns := listModify s.conns i (fun c => { c with sent := OutMsg.frame d t s.frameCount :: c.sent }) } := by
  simp only [sendFrame, hw, hc]
  rw [if_pos hrs]

/-! ## Claims -/

/-- C1: in every session state other than `Open` (`Idle`, `Connecting`,
`Closing`, `Closed`), `sendFrame` performs zero send operations on any
socket, queues nothing, and leaves the session's observable state
unchanged. -/
theorem sendFrame_noop_of_not_open (s : Session) (d : String) (now : Nat)
    (h : sessionState s ≠ SessionState.Open) :
    sendFrame s d now = s ∧ totalSent (sendFrame s d now) = totalSent s := by
  have hs : sendFrame s d now = s := by
    cases hw : s.wsRef with
    | none => simp [sendFrame, hw]
    | some i =>
      cases hc : s.conns[i]? with
      | none => simp [sendFrame, hw, hc]
      | some c =>
        by_cases hrs : c.rs = ReadyState.open_
        · exact absurd (by simp [sessionState, wsReadyState, hw, hc, hrs]) h
        · simp [sendFrame, hw, hc, hrs]
  exact ⟨hs, by rw [hs]⟩

/-- C1 witness: after `stopTracking`, the session is not `Open` and
`sendFrame` is a no-op. -/
theorem sendFrame_noop_of_not_open_witness :
    sendFrame (stopTracking sOpen) "img" 5 = stopTracking sOpen ∧
    totalSent (sendFrame (stopTracking sOpen) "img" 5) = totalSent (stopTracking sOpen) :=
  sendFrame_noop_of_not_open (stopTracking sOpen) "img" 5 (by decide)

/-- C2 counterexample: with a 1280×960 drawing surface and a 640×480
source, the redraw first resizes the surface to 640×480, so the bbox
(100,50,200,150) renders at (100,50,200,150) — not at (200,100,400,300)
as the claim states. -/
theorem draw_scale_instance_false :
    (draw 1280 960 640 480 [objC2]).objects.map RenderedObject.box =
      [{ x1 := 100, y1 := 50, x2 := 200, y2 := 150 }] ∧
    ({ x1 := 100, y1 := 50, x2 := 200, y2 := 150 } : BBox) ≠
      { x1 := 200, y1 := 100, x2 := 400, y2 := 300 } := by
  constructor
  · norm_num [draw, renderObject, objC2]
  · simp only [ne_eq, BBox.mk.injEq, not_and]
    intro hx
    exact absurd hx (by norm_num)

/-- C2 amended: every redraw maps each bbox corner (x, y) to
(x·scaleX, y·scaleY) with scaleX = surfaceWidth / sourceNativeWidth —
but only after the surface has been resized to the source's native
dimensions, so the scale factors are 1 on any axis whose native
dimension is nonzero (and 0 on a zero axis); in particular a 640×480
source with a pre-draw 1280×960 surface renders (100,50,200,150) at
(100,50,200,150). -/
theorem draw_scale_after_sync (cw ch vw vh : Nat) (objs : List TrackedObject) :
    (draw cw ch vw vh objs).scaleX = (if vw = 0 then 0 else 1) ∧
    (draw cw ch vw vh objs).scaleY = (if vh = 0 then 0 else 1) ∧
    (draw cw ch vw vh objs).objects.map RenderedObject.box =
      objs.map (fun o =>
        { x1 := o.bbox.x1 * (draw cw ch vw vh objs).scaleX
          y1 := o.bbox.y1 * (draw cw ch vw vh objs).scaleY
          x2 := o.bbox.x2 * (draw cw ch vw vh objs).scaleX
          y2 := o.bbox.y2 * (draw cw ch vw vh objs).scaleY }) ∧
    (draw 1280 960 640 480 [objC2]).objects.map RenderedObject.box =
      [{ x1 := 100, y1 := 50, x2 := 200, y2 := 150 }] := by
  have hsw : (if cw = vw ∧ ch = vh then cw else vw) = vw := by
    by_cases h : cw = vw ∧ ch = vh
    · rw [if_pos h, h.1]
    · rw [if_neg h]
  have hsh : (if cw = vw ∧ ch = vh then ch else vh) = vh := by
    by_cases h : cw = vw ∧ ch = vh
    · rw [if_pos h, h.2]
    · rw [if_neg h]
  have hx : (draw cw ch vw vh objs).scaleX = (if vw = 0 then 0 else 1) := by
    show ((if cw = vw ∧ ch = vh then cw else vw : Nat) : ℚ) / (((if vw = 0 then 1 else vw) : Nat) : ℚ) = _
    rw [hsw]
    by_cases hv : vw = 0
    · subst hv; norm_num
    · rw [if_neg hv, if_neg hv, div_self (by exact_mod_cast hv)]
  have hy : (draw cw ch vw vh objs).scaleY = (if vh = 0 then 0 else 1) := by
    show ((if cw = vw ∧ ch = vh then ch else vh : Nat) : ℚ) / (((if vh = 0 then 1 else vh) : Nat) : ℚ) = _
    rw [hsh]
    by_cases hv : vh = 0
    · subst hv; norm_num
    · rw [if_neg hv, if_neg hv, div_self (by exact_mod_cast hv)]
  refine ⟨hx, hy, ?_, by norm_num [draw, renderObject, objC2]⟩
  rw [show (draw cw ch vw vh objs).objects =
        objs.map (renderObject (draw cw ch vw vh objs).scaleX (draw cw ch vw vh objs).scaleY) from rfl,
      List.map_map]
  rfl

/-- C3: every inbound results message replaces the snapshot and
increments the counter, and when at least 1000ms elapsed since the last
window reset the FPS becomes round(counter·1000 / elapsedMs) with
counter and window start reset; after ten results messages uniformly
spaced across 1000ms the reported FPS is exactly 10. -/
theorem fps_window_step (s : Session) (objs : List TrackedObject) (now : Nat) :
    handleMessage s (resultsMsg objs) now = handleResults s objs now ∧
    handleResults s objs now =
      (if 1000 ≤ now - s.lastTime then
        { s with
          trackedObjects := objs
          fps := natRound ((s.frameCount + 1) * 1000) (now - s.lastTime)
          frameCount := 0
          lastTime := now }
       else { s with trackedObjects := objs, frameCount := s.frameCount + 1 }) ∧
    tenUniform.fps = 10 := by
  refine ⟨rfl, ?_, by rfl⟩
  by_cases h : 1000 ≤ now - s.lastTime <;> simp [handleResults, h]

/-- C3 witness: a results message arriving 1000ms after the window start
of the freshly opened session sets FPS to round(1·1000/1000) = 1. -/
theorem fps_window_step_witness :
    handleResults sOpen [] 1000 =
      { sOpen with
        trackedObjects := []
        fps := natRound ((sOpen.frameCount + 1) * 1000) (1000 - sOpen.lastTime)
        frameCount := 0
        lastTime := 1000 } := by
  rw [(fps_window_step sOpen [] 1000).2.1, if_pos (by decide)]

/-- C4: `stopTracking` empties the snapshot, zeroes FPS, cancels the
referenced keepalive interval, clears processing, leaves the referenced
socket no longer OPEN (closed if it was open), is safe from `Idle`
(`wsRef = none`), and a second consecutive call leaves the state
identical to the first. -/
theorem stopTracking_idem (s : Session) :
    (stopTracking s).trackedObjects = [] ∧
    (stopTracking s).fps = 0 ∧
    (stopTracking s).pingActive = false ∧
    (stopTracking s).isProcessing = false ∧
    Option.elim s.wsRef True (fun i => ((stopTracking s).conns[i]?).map Conn.rs ≠ some ReadyState.open_) ∧
    stopTracking (stopTracking s) = stopTracking s := by
  refine ⟨rfl, rfl, rfl, rfl, ?_, ?_⟩
  · cases hw : s.wsRef with
    | none => trivial
    | some i =>
      show ((stopTracking s).conns[i]?).map Conn.rs ≠ some ReadyState.open_
      have hconns : (stopTracking s).conns = listModify s.conns i closeSocket := by
        simp only [stopTracking, hw]
      rw [hconns, listModify_getElem]
      cases hc : s.conns[i]? with
      | none => simp
      | some c =>
        simp only [Option.map_some', ne_eq, Option.some.injEq]
        unfold closeSocket
        split <;> simp
  · cases hw : s.wsRef with
    | none => simp [stopTracking, hw]
    | some i => simp [stopTracking, hw]

/-- C5 counterexample: with a zero native width, the surface is resized
to width 0, so the x-scale is 0 — a bbox x-coordinate of 100 renders at
0, not at its source value as the claim states. -/
theorem draw_zero_axis_instance_false :
    (draw 640 480 0 480 [objC2]).objects.map RenderedObject.box =
      [{ x1 := 0, y1 := 50, x2 := 0, y2 := 150 }] ∧
    ({ x1 := 0, y1 := 50, x2 := 0, y2 := 150 } : BBox) ≠
      { x1 := 100, y1 := 50, x2 := 200, y2 := 150 } := by
  constructor
  · norm_num [draw, renderObject, objC2]
  · simp only [ne_eq, BBox.mk.injEq, not_and]
    intro hx
    exact absurd hx (by norm_num)

/-- Helper: with x-scale 0 every rendered box collapses to 0 on the
x-axis. -/
theorem map_box_x_of_scale_zero (sy : ℚ) (objs : List TrackedObject) :
    (objs.map (renderObject 0 sy)).map (fun r => (r.box.x1, r.box.x2)) =
      objs.map (fun _ => ((0 : ℚ), (0 : ℚ))) := by
  induction objs with
  | nil => rfl
  | cons o t ih => simp [renderObject, ih]

/-- Helper: with y-scale 0 every rendered box collapses to 0 on the
y-axis. -/
theorem map_box_y_of_scale_zero (sx : ℚ) (objs : List TrackedObject) :
    (objs.map (renderObject sx 0)).map (fun r => (r.box.y1, r.box.y2)) =
      objs.map (fun _ => ((0 : ℚ), (0 : ℚ))) := by
  induction objs with
  | nil => rfl
  | cons o t ih => simp [renderObject, ih]

/-- C5 amended: a zero native dimension raises no division error — the
divisor is replaced by 1 — but because the surface is first synced to the
native dimensions, the numerator on that axis is 0, so the scale factor
is 0 and every bbox coordinate on that axis renders at 0 (not at its
source value). -/
theorem draw_zero_axis_scale_zero (cw ch vw vh : Nat) (objs : List TrackedObject) :
    (draw cw ch 0 vh objs).scaleX = 0 ∧
    (draw cw ch 0 vh objs).objects.map (fun r => (r.box.x1, r.box.x2)) =
      objs.map (fun _ => ((0 : ℚ), (0 : ℚ))) ∧
    (draw cw ch vw 0 objs).scaleY = 0 ∧
    (draw cw ch vw 0 objs).objects.map (fun r => (r.box.y1, r.box.y2)) =
      objs.map (fun _ => ((0 : ℚ), (0 : ℚ))) := by
  have hx : (draw cw ch 0 vh objs).scaleX = 0 := by
    show ((if cw = 0 ∧ ch = vh then cw else 0 : Nat) : ℚ) / (((if (0 : Nat) = 0 then 1 else 0) : Nat) : ℚ) = 0
    by_cases h : cw = 0 ∧ ch = vh
    · rw [if_pos h, h.1]; norm_num
    · rw [if_neg h]; norm_num
  have hy : (draw cw ch vw 0 objs).scaleY = 0 := by
    show ((if cw = vw ∧ ch = 0 then ch else 0 : Nat) : ℚ) / (((if (0 : Nat) = 0 then 1 else 0) : Nat) : ℚ) = 0
    by_cases h : cw = vw ∧ ch = 0
    · rw [if_pos h, h.2]; norm_num
    · rw [if_neg h]; norm_num
  refine ⟨hx, ?_, hy, ?_⟩
  · rw [show (draw cw ch 0 vh objs).objects =
          objs.map (renderObject (draw cw ch 0 vh objs).scaleX (draw cw ch 0 vh objs).scaleY) from rfl,
        hx, map_box_x_of_scale_zero]
  · rw [show (draw cw ch vw 0 objs).objects =
          objs.map (renderObject (draw cw ch vw 0 objs).scaleX (draw cw ch vw 0 objs).scaleY) from rfl,
        hy, map_box_y_of_scale_zero]

/-- C6 counterexample: two inbound messages carrying an `error` field on
which the handler does not set the error state — one also tagged
`"pong"` (discarded first), one whose error string is empty (falsy in
JS). -/
theorem error_field_claim_false :
    (handleMessage sOpen { msgType := some "pong", error := some "boom", objects := none } 0).error = none ∧
    (handleMessage sOpen { msgType := none, error := some "", objects := none } 0).error = none ∧
    (none : Option String) ≠ some "boom" := by
  exact ⟨rfl, rfl, by decide⟩

/-- C6 amended: every inbound message not tagged `"pong"` whose `error`
field is a non-empty string sets the session's error state to it and
changes nothing else: no close is initiated, the socket states, the
session state and the snapshot are unchanged. -/
theorem error_message_sets_error (s : Session) (msg : InMsg) (now : Nat) (e : String)
    (h1 : msg.msgType ≠ some "pong") (h2 : msg.error = some e) (h3 : e ≠ "") :
    handleMessage s msg now = { s with error := some e } := by
  unfold handleMessage
  rw [if_neg h1, h2]
  simp [truthyStr, h3]

/-- C6 witness: a plain error message on the open session records the
error and leaves everything else unchanged. -/
theorem error_message_sets_error_witness :
    handleMessage sOpen { msgType := none, error := some "boom", objects := none } 0 =
      { sOpen with error := some "boom" } :=
  error_message_sets_error sOpen { msgType := none, error := some "boom", objects := none } 0 "boom"
    (by decide) rfl (by decide)

/-- C7 counterexample: two consecutive `sendFrame` calls on the open
session transmit frames whose `frame_id` is 0 both times — the later
frame's `frame_id` is not strictly greater than the earlier one's. -/
theorem frame_id_not_monotone :
    frameIds (sendFrame (sendFrame sOpen "a" 10) "b" 20) 0 = [0, 0] ∧
    ¬ (0 : Nat) > (0 : Nat) := by
  exact ⟨rfl, by decide⟩

/-- C7 amended: an outbound frame's `frame_id` is the current value of
the inbound-results counter (`frameCountRef`), which `sendFrame` does not
change; hence two frames sent with no intervening inbound results message
carry the same `frame_id`, and the sequence is not strictly increasing. -/
theorem frame_id_equals_counter (s : Session) (i : Nat) (c : Conn) (d1 d2 : String) (t1 t2 : Nat)
    (hw : s.wsRef = some i) (hc : s.conns[i]? = some c) (hrs : c.rs = ReadyState.open_) :
    frameIds (sendFrame (sendFrame s d1 t1) d2 t2) i =
      s.frameCount :: s.frameCount :: frameIds s i ∧
    (sendFrame s d1 t1).frameCount = s.frameCount := by
  have h1 := sendFrame_open s i c d1 t1 hw hc hrs
  have hc1 : (sendFrame s d1 t1).conns[i]? =
      some { c with sent := OutMsg.frame d1 t1 s.frameCount :: c.sent } := by
    rw [h1]
    show (listModify s.conns i _)[i]? = _
    rw [listModify_getElem, hc]
    rfl
  have h2 := sendFrame_open (sendFrame s d1 t1) i
    { c with sent := OutMsg.frame d1 t1 s.frameCount :: c.sent } d2 t2 (by rw [h1]; exact hw) hc1 hrs
  have hfc : (sendFrame s d1 t1).frameCount = s.frameCount := by rw [h1]
  have hc2 : (sendFrame (sendFrame s d1 t1) d2 t2).conns[i]? =
      some { c with sent := OutMsg.frame d2 t2 s.frameCount :: OutMsg.frame d1 t1 s.frameCount :: c.sent } := by
    rw [h2]
    show (listModify (sendFrame s d1 t1).conns i _)[i]? = _
    rw [listModify_getElem, hc1]
    simp [hfc]
  constructor
  · unfold frameIds
    rw [hc2, hc]
    rfl
  · rw [h1]

/-- C7 witness: on the freshly opened session (counter 0) two sends both
carry `frame_id` 0. -/
theorem frame_id_equals_counter_witness :
    frameIds (sendFrame (sendFrame sOpen "a" 10) "b" 20) 0 =
      sOpen.frameCount :: sOpen.frameCount :: frameIds sOpen 0 ∧
    (sendFrame sOpen "a" 10).frameCount = sOpen.frameCount :=
  frame_id_equals_counter sOpen 0 { rs := ReadyState.open_, sent := [] } "a" "b" 10 20
    (by decide) (by decide) rfl

/-- C8: calling `startTracking` a second time without an intervening
`stopTracking` creates a second WebSocket while the first remains open:
after both handshakes complete, two sockets are simultaneously OPEN and
`wsRef` points at the second — the second call is neither a no-op nor a
rejection. -/
theorem double_start_two_transports :
    openConnCount doubleStart = 2 ∧
    doubleStart.conns[0]?.map Conn.rs = some ReadyState.open_ ∧
    doubleStart.wsRef = some 1 :=
  ⟨rfl, rfl, rfl⟩

/-- C9 counterexample: after a second `startTracking` orphaned the first
socket, `stopTracking` closes only the referenced (second) socket; a
results message then delivered on the still-open first socket mutates the
snapshot, which no longer stays empty. -/
theorem stop_then_orphan_message_mutates :
    (deliver (stopTracking doubleStart) 0 (resultsMsg [objC9]) 2000).trackedObjects = [objC9] ∧
    (stopTracking doubleStart).trackedObjects = [] :=
  ⟨rfl, rfl⟩

/-- C9 amended: an inbound message delivered after `stopTracking` on the
socket that `stopTracking` closed (the session's referenced transport) is
ignored entirely — the snapshot stays empty and the keepalive timer stays
cancelled; only a socket orphaned by an earlier second `startTracking`
can still deliver. -/
theorem stop_then_message_noop (s : Session) (i : Nat) (msg : InMsg) (now : Nat)
    (h : s.wsRef = some i) :
    deliver (stopTracking s) i msg now = stopTracking s := by
  have hconns : (stopTracking s).conns = listModify s.conns i closeSocket := by
    simp only [stopTracking, h]
  unfold deliver
  rw [hconns, listModify_getElem]
  cases hc : s.conns[i]? with
  | none => rfl
  | some c =>
    have hne : (closeSocket c).rs ≠ ReadyState.open_ := by
      show (if c.rs = ReadyState.closed then ReadyState.closed else ReadyState.closing) ≠ ReadyState.open_
      split <;> simp
    simp [hne]

/-- C9 witness: after stopping the single-socket open session, a results
message on its (now closed) socket changes nothing. -/
theorem stop_then_message_noop_witness :
    deliver (stopTracking sOpen) 0 (resultsMsg []) 5 = stopTracking sOpen :=
  stop_then_message_noop sOpen 0 (resultsMsg []) 5 (by decide)

/-- Update only the `confidenceThreshold` field of the stored config. -/
def setThreshold (s : Session) (t : Option ℚ) : Session :=
  { s with config := { s.config with confidenceThreshold := t } }

theorem handleResults_setThreshold (s : Session) (objs : List TrackedObject) (now : Nat) (t : Option ℚ) :
    handleResults (setThreshold s t) objs now = setThreshold (handleResults s objs now) t := by
  by_cases h : 1000 ≤ now - s.lastTime <;> simp [handleResults, setThreshold, h]

theorem handleMessage_setThreshold (s : Session) (msg : InMsg) (now : Nat) (t : Option ℚ) :
    handleMessage (setThreshold s t) msg now = setThreshold (handleMessage s msg now) t := by
  unfold handleMessage
  by_cases h1 : msg.msgType = some "pong"
  · simp [h1]
  · by_cases h2 : truthyStr msg.error
    · simp [h1, h2, setThreshold]
    · cases ho : msg.objects with
      | none => simp [h1, h2, ho]
      | some objs => simp [h1, h2, ho, handleResults_setThreshold]

theorem sendFrame_setThreshold (s : Session) (d : String) (now : Nat) (t : Option ℚ) :
    sendFrame (setThreshold s t) d now = setThreshold (sendFrame s d now) t := by
  cases hw : s.wsRef with
  | none => simp [sendFrame, setThreshold, hw]
  | some i =>
    cases hc : s.conns[i]? with
    | none => simp [sendFrame, setThreshold, hw, hc]
    | some c =>
      by_cases hrs : c.rs = ReadyState.open_ <;>
        simp [sendFrame, setThreshold, hw, hc, hrs]

theorem deliver_setThreshold (s : Session) (i : Nat) (msg : InMsg) (now : Nat) (t : Option ℚ) :
    deliver (setThreshold s t) i msg now = setThreshold (deliver s i msg now) t := by
  cases hc : s.conns[i]? with
  | none => simp [deliver, setThreshold, hc]
  | some c =>
    by_cases hrs : c.rs = ReadyState.open_
    · have ha : deliver (setThreshold s t) i msg now = handleMessage (setThreshold s t) msg now := by
        simp [deliver, setThreshold, hc, hrs]
      have hb : deliver s i msg now = handleMessage s msg now := by
        simp [deliver, hc, hrs]
      rw [ha, hb, handleMessage_setThreshold]
    · simp [deliver, setThreshold, hc, hrs]

theorem stopTracking_setThreshold (s : Session) (t : Option ℚ) :
    stopTracking (setThreshold s t) = setThreshold (stopTracking s) t := by
  cases hw : s.wsRef <;> simp [stopTracking, setThreshold, hw]

theorem startTracking_setThreshold (s : Session) (now : Nat) (t : Option ℚ) :
    startTracking (setThreshold s t) now = setThreshold (startTracking s now) t := rfl

/-- C10: the pipeline never reads `confidenceThreshold`: every redraw
renders one record (box, corner accents, label) per tracked object
whatever its confidence — the snapshot list is mapped, never filtered —
inbound results are stored unfiltered, and every session operation
commutes with changing the threshold, so no observable behavior depends
on it. -/
theorem pipeline_ignores_confidence_threshold (cw ch vw vh : Nat) (objs : List TrackedObject)
    (s : Session) (t : Option ℚ) (msg : InMsg) (d : String) (now : Nat) (i : Nat) :
    (draw cw ch vw vh objs).objects =
      objs.map (renderObject (draw cw ch vw vh objs).scaleX (draw cw ch vw vh objs).scaleY) ∧
    (handleResults s objs now).trackedObjects = objs ∧
    handleMessage (setThreshold s t) msg now = setThreshold (handleMessage s msg now) t ∧
    sendFrame (setThreshold s t) d now = setThreshold (sendFrame s d now) t ∧
    deliver (setThreshold s t) i msg now = setThreshold (deliver s i msg now) t ∧
    stopTracking (setThreshold s t) = setThreshold (stopTracking s) t ∧
    startTracking (setThreshold s t) now = setThreshold (startTracking s now) t :=
  ⟨rfl,
   by by_cases h : 1000 ≤ now - s.lastTime <;> simp [handleResults, h],
   handleMessage_setThreshold s msg now t,
   sendFrame_setThreshold s d now t,
   deliver_setThreshold s i msg now t,
   stopTracking_setThreshold s t,
   startTracking_setThreshold s now t⟩

end ObjectTracking
